import Mathlib

/-!
Shallow embedding of the note-edit route
`app/routes/users+/$username_+/notes.$noteId_.edit.tsx`:
the read handler (`loader`), the write handler (`action`), and the
rendering logic of `NoteEdit` / `ErrorBoundary`, together with theorems
about their behaviour.
-/

namespace WebForms

/-- A persisted note record with `id`, `title` and `content` fields. -/
structure Note where
  id : String
  title : String
  content : String
deriving DecidableEq

/-- Modelled from the spec: the in-memory database of the external collaborator
`~/utils/db.server.ts` is a collection of notes; this file only reads it by id. -/
abbrev Db := List Note

/-- Modelled from the spec: `db.note.findFirst` with a `where id equals` clause
returns the first note whose id equals the given one, if any. -/
def findFirst (db : Db) (noteId : String) : Option Note :=
  db.find? (fun n => n.id == noteId)

/-- The JSON body `\x7b note: \x7b title, content \x7d \x7d` returned by the loader. -/
structure NoteView where
  title : String
  content : String
deriving DecidableEq

/-- Result of the read handler: either a thrown Response with an HTTP status
and body, or the JSON note payload. -/
inductive LoaderResult where
  | thrown (status : Nat) (body : String)
  | ok (note : NoteView)
deriving DecidableEq

/-- The read handler: looks up the note by id; throws a 404 Response when it
is absent, otherwise returns the JSON `\x7b note: \x7b title, content \x7d \x7d`. -/
def loader (db : Db) (noteId : String) : LoaderResult :=
  match findFirst db noteId with
  | none => LoaderResult.thrown 404 "Note note found"
  | some note => LoaderResult.ok { title := note.title, content := note.content }

/-- A value stored in form data: a text field or a file entry. -/
inductive FormValue where
  | str (s : String)
  | file
deriving DecidableEq

/-- Form data as an ordered list of name-value entries. -/
abbrev FormData := List (String × FormValue)

/-- The `formData.get(name)` accessor: first value under the name, else null. -/
def FormData.get (fd : FormData) (name : String) : Option FormValue :=
  (fd.find? (fun p => p.1 == name)).map (fun p => p.2)

/-- The `fieldErrors` record of `ActionErrors`. -/
structure FieldErrors where
  title : List String
  content : List String
deriving DecidableEq

/-- The `ActionErrors` record built by the write handler. -/
structure ActionErrors where
  formErrors : List String
  fieldErrors : FieldErrors
deriving DecidableEq

/-- Result of the write handler: a thrown Response, the error JSON
`\x7b status: error, errors \x7d` with an HTTP status, or a redirect. -/
inductive ActionResult where
  | thrown (status : Nat) (message : String)
  | errorJson (status : Nat) (errors : ActionErrors)
  | redirectTo (status : Nat) (location : String)
deriving DecidableEq

/-- The argument record passed to the persistence function `updateNote`. -/
structure UpdateArgs where
  id : String
  title : String
  content : String
deriving DecidableEq

/-- Observable outcome of one write-handler invocation: the response produced
and the call to `updateNote`, when one was made. -/
structure ActionOutcome where
  result : ActionResult
  updateCall : Option UpdateArgs
deriving DecidableEq

/-- JavaScript truthiness of an optional string: false exactly on the absent
value and on the empty string. -/
def truthy : Option String → Bool
  | none => false
  | some s => s.length != 0

/-- JavaScript template-literal interpolation of an optional string: the
absent value prints as the text undefined. -/
def interp : Option String → String
  | none => "undefined"
  | some s => s

def titleMinLength : Nat := 1
def titleMaxLength : Nat := 100
def contentMinLength : Nat := 1
def contentMaxLength : Nat := 10000

/-- The validation block of the write handler: starting from empty lists, each
of the four length checks pushes its message onto the matching field list. -/
def validateErrors (title content : String) : ActionErrors :=
  { formErrors := []
    fieldErrors :=
      { title :=
          (if title.length < titleMinLength then
            ["Title must be at least 1 character"] else []) ++
          (if title.length > titleMaxLength then
            ["Title must be at most 100 characters"] else [])
        content :=
          (if content.length < contentMinLength then
            ["Content must be at least 1 character"] else []) ++
          (if content.length > contentMaxLength then
            ["Content must be at most 10000 characters"] else []) } }

/-- The `hasErrors` test: `formErrors.length` is truthy, or some field-error
list (title, then content, the order of the object values) has truthy length. -/
def hasErrors (e : ActionErrors) : Bool :=
  e.formErrors.length != 0 ||
    (e.fieldErrors.title.length != 0 || e.fieldErrors.content.length != 0)

/-- Modelled from the spec: `invariantResponse` (from `~/utils/misc.ts`, not
under src) throws a bad-request Response (HTTP 400) carrying the message when
its condition is falsy. -/
def invariantFail (message : String) : ActionOutcome :=
  { result := ActionResult.thrown 400 message, updateCall := none }

/-- The write handler: guards the `noteId` param and the textuality of the
`title` and `content` form values via `invariantResponse`, accumulates length
validation errors, and either returns the error JSON with HTTP 400 without
calling `updateNote`, or calls `updateNote` and redirects to the note view
route. -/
def action (noteId username : Option String) (formData : FormData) : ActionOutcome :=
  if truthy noteId then
    match FormData.get formData "title", FormData.get formData "content" with
    | some (FormValue.str title), some (FormValue.str content) =>
        let errors := validateErrors title content
        if hasErrors errors then
          { result := ActionResult.errorJson 400 errors, updateCall := none }
        else
          { result := ActionResult.redirectTo 302
              ("/users/" ++ interp username ++ "/notes/" ++ interp noteId)
            updateCall := some
              { id := interp noteId, title := title, content := content } }
    | some (FormValue.str _), _ => invariantFail "content must be a string"
    | _, _ => invariantFail "title must be a string"
  else invariantFail "noteId param is required"

/-- Applying the persistence function to the recorded call, if any: when no
call to `updateNote` was made the database is unchanged. -/
def persist (update : UpdateArgs → Db → Db) (call : Option UpdateArgs) (db : Db) : Db :=
  match call with
  | none => db
  | some args => update args db

/-- The action data seen by `useActionData`: the JSON body of the error
response, with its `status` tag and `errors`. -/
structure ActionData where
  status : String
  errors : ActionErrors
deriving DecidableEq

/-- The ambient framework navigation state read by `useNavigation`. -/
structure Navigation where
  state : String
  formMethod : Option String
  formAction : Option String
deriving DecidableEq

/-- An `ErrorList` element as rendered: the `ul` id and its items. It is
rendered only when the error list is present and non-empty. -/
structure RenderedErrorList where
  id : Option String
  items : List String
deriving DecidableEq

/-- The `ErrorList` component: renders a list with the given id when the
errors are present and of truthy length, otherwise renders nothing. -/
def errorListView (id : Option String) (errors : Option (List String)) :
    Option RenderedErrorList :=
  match errors with
  | some l => if l.length != 0 then some { id := id, items := l } else none
  | none => none

/-- The attributes of the rendered form, fields and submit button that the
claims are about. `none` on an aria attribute is the absent (undefined)
attribute. -/
structure FormView where
  formNoValidate : Bool
  formAriaInvalid : Option Bool
  formAriaDescribedby : Option String
  titleAriaInvalid : Option Bool
  titleAriaDescribedby : Option String
  titleErrorList : Option RenderedErrorList
  contentAriaInvalid : Option Bool
  contentAriaDescribedby : Option String
  contentErrorList : Option RenderedErrorList
  formErrorList : Option RenderedErrorList
  submitDisabled : Bool
  submitStatus : String
deriving DecidableEq

/-- The `isSubmitting` flag of `NoteEdit`: the navigation state is not idle,
its form method is post, and its form action equals this form action. -/
def isSubmittingOf (navigation : Navigation) (formAction : String) : Bool :=
  navigation.state != "idle" &&
    (navigation.formMethod == some "post" &&
      navigation.formAction == some formAction)

/-- The `fieldErrors` binding of `NoteEdit`: the field errors of the action
data when its status is the error tag, else null. -/
def fieldErrorsOf (actionData : Option ActionData) : Option FieldErrors :=
  match actionData with
  | some ad => if ad.status == "error" then some ad.errors.fieldErrors else none
  | none => none

/-- The `formErrors` binding of `NoteEdit`: the form errors of the action
data when its status is the error tag, else null. -/
def formErrorsOf (actionData : Option ActionData) : Option (List String) :=
  match actionData with
  | some ad => if ad.status == "error" then some ad.errors.formErrors else none
  | none => none

/-- Boolean coercion of the optionally-chained length access: false on the
absent list and on the empty list. -/
def truthyLen : Option (List String) → Bool
  | some l => l.length != 0
  | none => false

/-- The `NoteEdit` component, restricted to the attributes the claims are
about, as a function of the action data, the navigation state, the current
form action and the hydration flag. -/
def noteEdit (actionData : Option ActionData) (navigation : Navigation)
    (formAction : String) (isHydrated : Bool) : FormView :=
  let isSubmitting := isSubmittingOf navigation formAction
  let fieldErrors := fieldErrorsOf actionData
  let formErrors := formErrorsOf actionData
  let formHasErrors := truthyLen formErrors
  let formErrorId := if formHasErrors then some "form-error" else none
  let titleHasErrors := truthyLen (fieldErrors.map FieldErrors.title)
  let titleErrorId := if titleHasErrors then some "title-error" else none
  let contentHasErrors := truthyLen (fieldErrors.map FieldErrors.content)
  let contentErrorId := if contentHasErrors then some "content-error" else none
  { formNoValidate := isHydrated
    formAriaInvalid := if formHasErrors then some true else none
    formAriaDescribedby := formErrorId
    titleAriaInvalid := if titleHasErrors then some true else none
    titleAriaDescribedby := titleErrorId
    titleErrorList := errorListView titleErrorId (fieldErrors.map FieldErrors.title)
    contentAriaInvalid := if contentHasErrors then some true else none
    contentAriaDescribedby := contentErrorId
    contentErrorList := errorListView contentErrorId (fieldErrors.map FieldErrors.content)
    formErrorList := errorListView formErrorId formErrors
    submitDisabled := isSubmitting
    submitStatus := if isSubmitting then "pending" else "idle" }

/-- JSX interpolation of an optional string: the absent value renders as
empty text. -/
def jsxText : Option String → String
  | none => ""
  | some s => s

/-- The 404 status handler of the `ErrorBoundary`: the paragraph text it
renders from the route params, echoing the `noteId` param. -/
def render404 (noteId : Option String) : String :=
  "No note with the id \"" ++ jsxText noteId ++ "\" exists"

/-- The `typeof x === string` test on an optional form value. -/
def isStringValue : Option FormValue → Bool
  | some (FormValue.str _) => true
  | _ => false

/-! Helper lemmas shared by the claim theorems. -/

theorem hasErrors_validateErrors (t c : String) :
    hasErrors (validateErrors t c) = true ↔
      (t.length < titleMinLength ∨ t.length > titleMaxLength ∨
        c.length < contentMinLength ∨ c.length > contentMaxLength) := by
  simp only [hasErrors, validateErrors]
  split_ifs <;> simp_all

theorem action_errorJson_shape (noteId username : Option String) (fd : FormData)
    (s : Nat) (e : ActionErrors)
    (h : (action noteId username fd).result = ActionResult.errorJson s e) :
    s = 400 ∧ ∃ t c, FormData.get fd "title" = some (FormValue.str t) ∧
      FormData.get fd "content" = some (FormValue.str c) ∧
      hasErrors (validateErrors t c) = true ∧ e = validateErrors t c := by
  by_cases hid : truthy noteId = true
  · rcases hT : FormData.get fd "title" with _ | v
    · simp [action, hid, hT, invariantFail] at h
    · cases v with
      | file => simp [action, hid, hT, invariantFail] at h
      | str t =>
        rcases hC : FormData.get fd "content" with _ | w
        · simp [action, hid, hT, hC, invariantFail] at h
        · cases w with
          | file => simp [action, hid, hT, hC, invariantFail] at h
          | str c =>
            by_cases he : hasErrors (validateErrors t c) = true
            · simp [action, hid, hT, hC, he] at h
              exact ⟨h.1.symm, t, c, rfl, rfl, he, h.2.symm⟩
            · simp [action, hid, hT, hC, he] at h
  · simp [action, hid, invariantFail] at h

theorem validateErrors_title_le_one (t c : String) :
    (validateErrors t c).fieldErrors.title.length ≤ 1 := by
  simp only [validateErrors, titleMinLength, titleMaxLength]
  split_ifs <;> simp_all

theorem validateErrors_content_le_one (t c : String) :
    (validateErrors t c).fieldErrors.content.length ≤ 1 := by
  simp only [validateErrors, contentMinLength, contentMaxLength]
  split_ifs <;> simp_all

/-- C1: a write-handler invocation whose title length is outside [1,100] or
whose content length is outside [1,10000] returns the accumulated errors with
HTTP status 400, records no call to `updateNote`, and leaves the database
unchanged under any persistence function. -/
theorem invalid_submission_returns_errors_and_skips_persist
    (noteId username : Option String) (fd : FormData) (title content : String)
    (hid : truthy noteId = true)
    (ht : FormData.get fd "title" = some (FormValue.str title))
    (hc : FormData.get fd "content" = some (FormValue.str content))
    (hbad : title.length < titleMinLength ∨ title.length > titleMaxLength ∨
      content.length < contentMinLength ∨ content.length > contentMaxLength) :
    (action noteId username fd).result =
        ActionResult.errorJson 400 (validateErrors title content) ∧
      (action noteId username fd).updateCall = none ∧
      ∀ (update : UpdateArgs → Db → Db) (db : Db),
        persist update (action noteId username fd).updateCall db = db := by
  have he : hasErrors (validateErrors title content) = true :=
    (hasErrors_validateErrors title content).mpr hbad
  refine ⟨?_, ?_, ?_⟩ <;> simp [action, hid, ht, hc, he, persist]

theorem invalid_submission_returns_errors_and_skips_persist_witness :
    (action (some "n1") (some "kody")
        [("title", FormValue.str ""), ("content", FormValue.str "Body")]).result
      = ActionResult.errorJson 400 (validateErrors "" "Body") ∧
    (action (some "n1") (some "kody")
        [("title", FormValue.str ""), ("content", FormValue.str "Body")]).updateCall
      = none := by
  have h := invalid_submission_returns_errors_and_skips_persist (some "n1") (some "kody")
    [("title", FormValue.str ""), ("content", FormValue.str "Body")] "" "Body"
    (by decide) (by rfl) (by rfl) (Or.inl (by decide))
  exact ⟨h.1, h.2.1⟩

/-- C2: for strings submitted to the write handler, a title length below 1 or
above 100 puts the matching message into the title field-error list, a content
length below 1 or above 10000 puts the matching message into the content
field-error list, each field accumulates independently of the other, both can
co-occur, and any violation makes the action return the error JSON. -/
theorem length_violations_accumulate_field_errors
    (noteId username : Option String) (fd : FormData) (title content : String)
    (hid : truthy noteId = true)
    (ht : FormData.get fd "title" = some (FormValue.str title))
    (hc : FormData.get fd "content" = some (FormValue.str content)) :
    (title.length < titleMinLength →
      "Title must be at least 1 character" ∈
        (validateErrors title content).fieldErrors.title) ∧
    (title.length > titleMaxLength →
      "Title must be at most 100 characters" ∈
        (validateErrors title content).fieldErrors.title) ∧
    (content.length < contentMinLength →
      "Content must be at least 1 character" ∈
        (validateErrors title content).fieldErrors.content) ∧
    (content.length > contentMaxLength →
      "Content must be at most 10000 characters" ∈
        (validateErrors title content).fieldErrors.content) ∧
    ((title.length < titleMinLength ∨ title.length > titleMaxLength) →
      (validateErrors title content).fieldErrors.title ≠ []) ∧
    ((content.length < contentMinLength ∨ content.length > contentMaxLength) →
      (validateErrors title content).fieldErrors.content ≠ []) ∧
    (((title.length < titleMinLength ∨ title.length > titleMaxLength) ∨
        (content.length < contentMinLength ∨ content.length > contentMaxLength)) →
      (action noteId username fd).result =
        ActionResult.errorJson 400 (validateErrors title content)) := by
  refine ⟨?_, ?_, ?_, ?_, ?_, ?_, ?_⟩
  · intro h; simp [validateErrors, h]
  · intro h; simp [validateErrors, h]
  · intro h; simp [validateErrors, h]
  · intro h; simp [validateErrors, h]
  · intro h; rcases h with h | h <;> simp [validateErrors, h]
  · intro h; rcases h with h | h <;> simp [validateErrors, h]
  · intro h
    have he : hasErrors (validateErrors title content) = true :=
      (hasErrors_validateErrors title content).mpr (by tauto)
    simp [action, hid, ht, hc, he]

theorem length_violations_accumulate_field_errors_witness :
    "Title must be at least 1 character" ∈
        (validateErrors "" "").fieldErrors.title ∧
      "Content must be at least 1 character" ∈
        (validateErrors "" "").fieldErrors.content ∧
      (validateErrors "" "").fieldErrors.title ≠ [] ∧
      (validateErrors "" "").fieldErrors.content ≠ [] ∧
      (action (some "n1") (some "kody")
          [("title", FormValue.str ""), ("content", FormValue.str "")]).result
        = ActionResult.errorJson 400 (validateErrors "" "") := by
  have h := length_violations_accumulate_field_errors (some "n1") (some "kody")
    [("title", FormValue.str ""), ("content", FormValue.str "")] "" ""
    (by decide) (by rfl) (by rfl)
  exact ⟨h.1 (by decide), h.2.2.1 (by decide), h.2.2.2.2.1 (Or.inl (by decide)),
    h.2.2.2.2.2.1 (Or.inl (by decide)), h.2.2.2.2.2.2 (Or.inl (Or.inl (by decide)))⟩

/-- C3: a write-handler invocation with a present (non-empty) note id param,
a present username param, and string title and content within the length
bounds calls `updateNote` with that id, title and content and returns a
redirect to the note view route. -/
theorem valid_submission_persists_and_redirects
    (id user : String) (fd : FormData) (title content : String)
    (hid : id.length ≠ 0)
    (ht : FormData.get fd "title" = some (FormValue.str title))
    (hc : FormData.get fd "content" = some (FormValue.str content))
    (ht1 : titleMinLength ≤ title.length) (ht2 : title.length ≤ titleMaxLength)
    (hc1 : contentMinLength ≤ content.length)
    (hc2 : content.length ≤ contentMaxLength) :
    action (some id) (some user) fd =
      { result := ActionResult.redirectTo 302 ("/users/" ++ user ++ "/notes/" ++ id)
        updateCall := some { id := id, title := title, content := content } } := by
  have hid2 : truthy (some id) = true := by simp [truthy, hid]
  have he : hasErrors (validateErrors title content) = false := by
    cases hE : hasErrors (validateErrors title content) with
    | false => rfl
    | true =>
      exfalso
      have hd := (hasErrors_validateErrors title content).mp hE
      simp only [titleMinLength, titleMaxLength, contentMinLength,
        contentMaxLength] at hd ht1 ht2 hc1 hc2
      omega
  simp [action, hid2, ht, hc, he, interp]

theorem valid_submission_persists_and_redirects_witness :
    action (some "n1") (some "kody")
        [("title", FormValue.str "Hi"), ("content", FormValue.str "Body")] =
      { result := ActionResult.redirectTo 302 "/users/kody/notes/n1"
        updateCall := some { id := "n1", title := "Hi", content := "Body" } } := by
  have h := valid_submission_persists_and_redirects "n1" "kody"
    [("title", FormValue.str "Hi"), ("content", FormValue.str "Body")] "Hi" "Body"
    (by decide) (by rfl) (by rfl) (by decide) (by decide) (by decide) (by decide)
  exact h.trans (by rfl)

/-- C9: whenever the write handler returns the error JSON response, its
`formErrors` list is empty: the handler populates only the two field-error
lists. -/
theorem error_response_has_no_form_errors (noteId username : Option String)
    (fd : FormData) (s : Nat) (e : ActionErrors)
    (h : (action noteId username fd).result = ActionResult.errorJson s e) :
    e.formErrors = [] := by
  obtain ⟨-, t, c, -, -, -, rfl⟩ := action_errorJson_shape noteId username fd s e h
  simp [validateErrors]

theorem error_response_has_no_form_errors_witness :
    (validateErrors "" "Hello").formErrors = [] :=
  error_response_has_no_form_errors (some "n1") (some "kody")
    [("title", FormValue.str ""), ("content", FormValue.str "Hello")]
    400 (validateErrors "" "Hello") (by rfl)

/-- C10: whenever the write handler returns the error JSON response, each
field-error list holds at most one message, the too-short and too-long
conditions being mutually exclusive for one string. -/
theorem field_error_lists_have_at_most_one_message (noteId username : Option String)
    (fd : FormData) (s : Nat) (e : ActionErrors)
    (h : (action noteId username fd).result = ActionResult.errorJson s e) :
    e.fieldErrors.title.length ≤ 1 ∧ e.fieldErrors.content.length ≤ 1 := by
  obtain ⟨-, t, c, -, -, -, rfl⟩ := action_errorJson_shape noteId username fd s e h
  exact ⟨validateErrors_title_le_one t c, validateErrors_content_le_one t c⟩

theorem field_error_lists_have_at_most_one_message_witness :
    (validateErrors "" "").fieldErrors.title.length ≤ 1 ∧
      (validateErrors "" "").fieldErrors.content.length ≤ 1 :=
  field_error_lists_have_at_most_one_message (some "n1") (some "kody")
    [("title", FormValue.str ""), ("content", FormValue.str "")]
    400 (validateErrors "" "") (by rfl)

/-- C4: the read handler fails with HTTP 404 when no note with the given id
exists, and otherwise returns the JSON payload holding exactly that note title
and content. -/
theorem loader_returns_note_json_or_404 (db : Db) (noteId : String) :
    (findFirst db noteId = none →
      loader db noteId = LoaderResult.thrown 404 "Note note found") ∧
    (∀ n, findFirst db noteId = some n →
      loader db noteId = LoaderResult.ok { title := n.title, content := n.content }) := by
  constructor
  · intro h; simp [loader, h]
  · intro n h; simp [loader, h]

theorem loader_returns_note_json_or_404_witness :
    loader [{ id := "n1", title := "T", content := "C" }] "nope"
        = LoaderResult.thrown 404 "Note note found" ∧
      loader [{ id := "n1", title := "T", content := "C" }] "n1"
        = LoaderResult.ok { title := "T", content := "C" } :=
  ⟨(loader_returns_note_json_or_404
      [{ id := "n1", title := "T", content := "C" }] "nope").1 (by rfl),
    (loader_returns_note_json_or_404
      [{ id := "n1", title := "T", content := "C" }] "n1").2
      { id := "n1", title := "T", content := "C" } (by rfl)⟩

/-- C5: a read with an unknown note id yields the 404, and the 404 status
handler of the error boundary renders a paragraph echoing that id from the
route params. -/
theorem missing_note_404_echoes_id (db : Db) (noteId : String)
    (h : findFirst db noteId = none) :
    loader db noteId = LoaderResult.thrown 404 "Note note found" ∧
      render404 (some noteId) = "No note with the id \"" ++ noteId ++ "\" exists" :=
  ⟨by simp [loader, h], rfl⟩

theorem missing_note_404_echoes_id_witness :
    loader [] "n9" = LoaderResult.thrown 404 "Note note found" ∧
      render404 (some "n9") = "No note with the id \"n9\" exists" := by
  have h := missing_note_404_echoes_id [] "n9" (by rfl)
  exact ⟨h.1, h.2.trans (by rfl)⟩

/-- C6: the write handler throws a bad-request (HTTP 400) Response when the
note id param is falsy, whatever the form holds; when the title form value is
not a string; and when the title is a string but the content form value is
not. In each case no call to `updateNote` is recorded. -/
theorem action_guards_bad_request (noteId username : Option String) (fd : FormData) :
    (truthy noteId = false →
      action noteId username fd =
        { result := ActionResult.thrown 400 "noteId param is required"
          updateCall := none }) ∧
    (truthy noteId = true → isStringValue (FormData.get fd "title") = false →
      action noteId username fd =
        { result := ActionResult.thrown 400 "title must be a string"
          updateCall := none }) ∧
    (truthy noteId = true → isStringValue (FormData.get fd "title") = true →
      isStringValue (FormData.get fd "content") = false →
      action noteId username fd =
        { result := ActionResult.thrown 400 "content must be a string"
          updateCall := none }) := by
  refine ⟨?_, ?_, ?_⟩
  · intro h; simp [action, h, invariantFail]
  · intro h1 h2
    rcases hT : FormData.get fd "title" with _ | v
    · simp [action, h1, hT, invariantFail]
    · cases v with
      | file => simp [action, h1, hT, invariantFail]
      | str t => simp [isStringValue, hT] at h2
  · intro h1 h2 h3
    rcases hT : FormData.get fd "title" with _ | v
    · simp [isStringValue, hT] at h2
    · cases v with
      | file => simp [isStringValue, hT] at h2
      | str t =>
        rcases hC : FormData.get fd "content" with _ | w
        · simp [action, h1, hT, hC, invariantFail]
        · cases w with
          | file => simp [action, h1, hT, hC, invariantFail]
          | str c => simp [isStringValue, hC] at h3

theorem action_guards_bad_request_witness :
    action none (some "kody") [] =
        { result := ActionResult.thrown 400 "noteId param is required"
          updateCall := none } ∧
      action (some "n1") (some "kody") [] =
        { result := ActionResult.thrown 400 "title must be a string"
          updateCall := none } ∧
      action (some "n1") (some "kody") [("title", FormValue.str "Hi")] =
        { result := ActionResult.thrown 400 "content must be a string"
          updateCall := none } :=
  ⟨(action_guards_bad_request none (some "kody") []).1 (by rfl),
    (action_guards_bad_request (some "n1") (some "kody") []).2.1 (by decide) (by rfl),
    (action_guards_bad_request (some "n1") (some "kody")
      [("title", FormValue.str "Hi")]).2.2 (by decide) (by rfl) (by rfl)⟩

/-- C7: a field of the rendered edit form carries aria-invalid and an
aria-describedby naming the id of its rendered error list exactly when the
action data holds at least one error for that field, and likewise the form
element for the form-level errors. -/
theorem aria_linkage_tracks_error_state (actionData : Option ActionData)
    (navigation : Navigation) (formAction : String) (isHydrated : Bool) :
    (((noteEdit actionData navigation formAction isHydrated).titleAriaInvalid = some true ∧
        (noteEdit actionData navigation formAction isHydrated).titleAriaDescribedby
          = some "title-error" ∧
        (∃ r, (noteEdit actionData navigation formAction isHydrated).titleErrorList
            = some r ∧ r.id = some "title-error")) ↔
      (∃ ad, actionData = some ad ∧ ad.status = "error" ∧
        ad.errors.fieldErrors.title ≠ [])) ∧
    (((noteEdit actionData navigation formAction isHydrated).contentAriaInvalid = some true ∧
        (noteEdit actionData navigation formAction isHydrated).contentAriaDescribedby
          = some "content-error" ∧
        (∃ r, (noteEdit actionData navigation formAction isHydrated).contentErrorList
            = some r ∧ r.id = some "content-error")) ↔
      (∃ ad, actionData = some ad ∧ ad.status = "error" ∧
        ad.errors.fieldErrors.content ≠ [])) ∧
    (((noteEdit actionData navigation formAction isHydrated).formAriaInvalid = some true ∧
        (noteEdit actionData navigation formAction isHydrated).formAriaDescribedby
          = some "form-error" ∧
        (∃ r, (noteEdit actionData navigation formAction isHydrated).formErrorList
            = some r ∧ r.id = some "form-error")) ↔
      (∃ ad, actionData = some ad ∧ ad.status = "error" ∧
        ad.errors.formErrors ≠ [])) := by
  cases actionData with
  | none => simp [noteEdit, fieldErrorsOf, formErrorsOf, truthyLen, errorListView]
  | some ad =>
    obtain ⟨st, frm, ftl, fcl⟩ := ad
    by_cases hs : st = "error"
    · subst hs
      cases frm <;> cases ftl <;> cases fcl <;>
        simp [noteEdit, fieldErrorsOf, formErrorsOf, truthyLen, errorListView]
    · simp [noteEdit, fieldErrorsOf, formErrorsOf, truthyLen, errorListView, hs]

/-- C8: the submit button of the rendered edit form is disabled exactly when
the navigation state is not idle, the in-flight form method is post, and the
in-flight form action equals this form action. -/
theorem submit_disabled_iff_matching_inflight (actionData : Option ActionData)
    (navigation : Navigation) (formAction : String) (isHydrated : Bool) :
    (noteEdit actionData navigation formAction isHydrated).submitDisabled = true ↔
      (navigation.state ≠ "idle" ∧ navigation.formMethod = some "post" ∧
        navigation.formAction = some formAction) := by
  simp [noteEdit, isSubmittingOf, Bool.and_eq_true, bne_iff_ne]

end WebForms
